import Mathlib

set_option maxRecDepth 100000

/-!
# AquaBliss point-of-sale backend: order workflow

A shallow embedding of `src/routes/orders.js` (order creation, order query and
receipt formatting) together with the properties of the order workflow.

Modelling conventions.

* A catalog price is a decimal (`Decimal`), the text the store returns for the
  `unit_price` column; `50.00` is `⟨5000, 2⟩`.  `Number(...)` turns it into a
  JavaScript number.
* A JavaScript number is an IEEE 754 binary64 value (`Double`).  `Double.mul` and
  `Double.add` are the operators `*` and `+` of the handler: the exact result
  rounded to the nearest double, ties to even, with the usual rules for zeros,
  infinities and NaN.  The numeric columns of `orders` and `order_items` hold the
  number the handler bound to the INSERT; what a column type does to it on
  storage is part of the schema, which the sources do not contain.
* Quantities and product ids are the integers the client sent (`Int`): the
  handler does not inspect them.
* A JavaScript string is a Lean `String`; its length and indices count the
  characters of `String.data`, which are the UTF-16 units JavaScript counts for
  text of the Basic Multilingual Plane.
* The relational store behind `pool.query` is external.  It is a record of the
  three tables as lists of rows, in insertion order.  A `Faults` schedule tells
  which of the queries issued by one handler invocation is rejected by the
  store, and with which error message.
-/

namespace AquaBliss

/-! ## Numbers -/

/-- A decimal number `unscaled / 10 ^ scale`. -/
structure Decimal where
  unscaled : Int
  scale : Nat
  deriving DecidableEq, Repr

/-- A JavaScript number.  `fin negative mantissa exponent` is the finite value
`(-1) ^ negative * mantissa * 2 ^ exponent`, held in the form of the binary64
encoding: `mantissa < 2 ^ 53`, `-1074 ≤ exponent ≤ 971`, and `exponent = -1074`
when `mantissa < 2 ^ 52` (zeros and subnormals). -/
inductive Double where
  | nan
  | inf (negative : Bool)
  | fin (negative : Bool) (mantissa : Nat) (exponent : Int)
  deriving DecidableEq, Repr

/-- The number of halvings that take `k` below 2, counted with fuel. -/
def log2FloorAux : Nat → Nat → Nat
  | 0, _ => 0
  | fuel + 1, k => if k < 2 then 0 else log2FloorAux fuel (k / 2) + 1

/-- The position of the leading binary digit of `n`: `floor (log2 n)`, and 0 for
0.  The fuel `n` is never used up. -/
def log2Floor (n : Nat) : Nat :=
  log2FloorAux n n

/-- The double nearest to the rational `(-1) ^ negative * num / den` (with
`den > 0`), ties to the even mantissa; values too large become an infinity. -/
def Double.round (negative : Bool) (num den : Nat) : Double :=
  if num = 0 then .fin negative 0 (-1074) else
    let l0 : Int := (log2Floor num : Int) - (log2Floor den : Int)
    let reached : Bool :=
      if 0 ≤ l0 then decide (den * 2 ^ l0.toNat ≤ num) else decide (den ≤ num * 2 ^ (-l0).toNat)
    let l : Int := if reached then l0 else l0 - 1
    let e : Int := max (l - 52) (-1074)
    let n : Nat := if 0 ≤ e then num else num * 2 ^ (-e).toNat
    let d : Nat := if 0 ≤ e then den * 2 ^ e.toNat else den
    let q := n / d
    let r := n % d
    let m := if d < 2 * r ∨ (2 * r = d ∧ q % 2 = 1) then q + 1 else q
    let m' := if m = 2 ^ 53 then 2 ^ 52 else m
    let e' := if m = 2 ^ 53 then e + 1 else e
    if 971 < e' then .inf negative else .fin negative m' e'

/-- The double nearest to `(-1) ^ negative * m * 2 ^ e`. -/
def Double.roundDyadic (negative : Bool) (m : Nat) (e : Int) : Double :=
  if 0 ≤ e then Double.round negative (m * 2 ^ e.toNat) 1
  else Double.round negative m (2 ^ (-e).toNat)

/-- The number `0` of `let total = 0`. -/
def Double.zero : Double := .fin false 0 (-1074)

/-- The number an integer of the request body is parsed to. -/
def Double.ofInt (n : Int) : Double := Double.round (decide (n < 0)) n.natAbs 1

/-- The JavaScript `Number(x)` of the decimal text of a numeric column. -/
def Number (d : Decimal) : Double :=
  Double.round (decide (d.unscaled < 0)) d.unscaled.natAbs (10 ^ d.scale)

/-- The JavaScript `x * y` on numbers. -/
def Double.mul : Double → Double → Double
  | .nan, _ => .nan
  | _, .nan => .nan
  | .inf s, .inf t => .inf (s != t)
  | .inf s, .fin t n _ => if n = 0 then .nan else .inf (s != t)
  | .fin s m _, .inf t => if m = 0 then .nan else .inf (s != t)
  | .fin s m e, .fin t n f => Double.roundDyadic (s != t) (m * n) (e + f)

/-- The JavaScript `x + y` on numbers. -/
def Double.add : Double → Double → Double
  | .nan, _ => .nan
  | _, .nan => .nan
  | .inf s, .inf t => if s = t then .inf s else .nan
  | .inf s, .fin _ _ _ => .inf s
  | .fin _ _ _, .inf t => .inf t
  | .fin s m e, .fin t n f =>
    if m = 0 ∧ n = 0 then .fin (s && t) 0 (-1074)
    else if m = 0 then .fin t n f
    else if n = 0 then .fin s m e
    else
      let g := min e f
      let a : Int :=
        if s then -((m * 2 ^ (e - g).toNat : Nat) : Int) else ((m * 2 ^ (e - g).toNat : Nat) : Int)
      let b : Int :=
        if t then -((n * 2 ^ (f - g).toNat : Nat) : Int) else ((n * 2 ^ (f - g).toNat : Nat) : Int)
      let c := a + b
      if c = 0 then .fin false 0 (-1074)
      else Double.roundDyadic (decide (c < 0)) c.natAbs g

/-- The decimal digits of `n` without its trailing zeros. -/
def significantDigits (n : Nat) : String :=
  ⟨((toString n).data.reverse.dropWhile (fun c => c == '0')).reverse⟩

/-- The JavaScript text of a finite number `x ≥ 10 ^ 21`, which is an integer:
the shortest digit string that reads back as the same double, the nearest to `x`
among those, written in exponent form. -/
def toStringLarge (x : Nat) : String :=
  let target := Double.round false x 1
  let len := (toString x).length
  let pick : Option Nat := (List.range 17).findSome? (fun i =>
    let p := 10 ^ (len - (i + 1))
    let lo := x / p
    let vlo := lo * p
    let vhi := (lo + 1) * p
    let oklo := decide (Double.round false vlo 1 = target)
    let okhi := decide (Double.round false vhi 1 = target)
    if oklo && okhi then
      (if x - vlo < vhi - x then some vlo
       else if vhi - x < x - vlo then some vhi
       else if lo % 2 = 0 then some vlo else some vhi)
    else if oklo then some vlo
    else if okhi then some vhi
    else none)
  let v := pick.getD x
  let digits := significantDigits v
  let exponent := (toString v).length - 1
  let mantissa : String :=
    if digits.length ≤ 1 then digits
    else ⟨digits.data.take 1 ++ ['.'] ++ digits.data.drop 1⟩
  mantissa ++ "e+" ++ toString exponent

/-- The JavaScript `x.toFixed(2)`: the integer `n` with `n / 100` nearest to
`|x|`, the larger one on a tie, written with two decimals; numbers from
`10 ^ 21` on, infinities and NaN are written as `String(x)` writes them. -/
def toFixed2 : Double → String
  | .nan => "NaN"
  | .inf s => if s then "-Infinity" else "Infinity"
  | .fin s m e =>
    let sign := if s && decide (m ≠ 0) then "-" else ""
    if 0 ≤ e ∧ 10 ^ 21 ≤ m * 2 ^ e.toNat then sign ++ toStringLarge (m * 2 ^ e.toNat)
    else
      let n : Nat :=
        if 0 ≤ e then m * 100 * 2 ^ e.toNat
        else
          let d := 2 ^ (-e).toNat
          let q := (m * 100) / d
          let r := (m * 100) % d
          if d ≤ 2 * r then q + 1 else q
      sign ++ toString (n / 100) ++ "." ++ (if n % 100 < 10 then "0" else "") ++
        toString (n % 100)

/-! ## Data model -/

/-- A row of the `products` table. -/
structure Product where
  product_id : Int
  name : String
  description : String
  unit_price : Decimal
  stock_quantity : Int
  deriving DecidableEq, Repr

/-- A row of the `orders` table. -/
structure Order where
  order_id : Nat
  customer_name : Option String
  customer_phone : Option String
  total_amount : Double
  status : String
  payment_method : Option String
  transaction_code : Option String
  created_at : Option Nat
  deriving DecidableEq, Repr

/-- A row of the `order_items` table. -/
structure OrderItem where
  order_id : Nat
  product_id : Int
  quantity : Int
  unit_price : Double
  subtotal : Double
  deriving DecidableEq, Repr

/-- Modelled from the spec: the database schema is not part of the sources.  The
store holds the three tables; `next_order_id` is the serial from which the store
assigns `order_id` on insert ("identifier assigned on creation, unique") and
`clock` is the store time used for `created_at` ("creation timestamp assigned by
the store at insert time"). -/
structure Store where
  products : List Product
  orders : List Order
  order_items : List OrderItem
  next_order_id : Nat
  clock : Nat
  deriving DecidableEq, Repr

/-- One element of `req.body.items`.  `unit_price` and `subtotal` are the
fields a client may have put on the element; the handler never reads them before
overwriting them. -/
structure LineItem where
  product_id : Int
  quantity : Int
  unit_price : Option Double
  subtotal : Option Double
  deriving DecidableEq, Repr

/-- The element of `items` after lines 24-25 of `orders.js` have assigned
`item.unit_price` and `item.subtotal`. -/
structure PricedItem where
  product_id : Int
  quantity : Int
  unit_price : Double
  subtotal : Double
  deriving DecidableEq, Repr

/-- The destructured `req.body` of `POST /orders`. -/
structure OrderRequest where
  customer_name : Option String
  customer_phone : Option String
  items : List LineItem
  paymentMethod : Option String
  transactionCode : Option String
  deriving DecidableEq, Repr

/-- A row of the join of `order_items` with `products` selected by the two
read handlers. -/
structure ItemView where
  product_id : Int
  product_name : String
  quantity : Int
  unit_price : Double
  subtotal : Double
  deriving DecidableEq, Repr

/-- JSON bodies sent by the order routes. -/
inductive Body where
  | created (message : String) (orderId : Nat) (total : Double)
  | error (error : String)
  | orderWithItems (order : Order) (items : List ItemView)
  deriving DecidableEq, Repr

/-- A JSON response: `res.status(status).json(body)`; `res.json(body)` is status 200. -/
structure Response where
  status : Nat
  body : Body
  deriving DecidableEq, Repr

/-- The k-th `pool.query` call of a handler invocation (counted from 0) is
rejected with message `m` when the schedule gives `some m` at `k`. -/
abbrev Faults := Nat → Option String

/-- The store answers every query. -/
def noFaults : Faults := fun _ => none

/-! ## Store queries -/

/-- The rows of `SELECT unit_price FROM products WHERE product_id = $1`. -/
def Store.selectUnitPrice (s : Store) (product_id : Int) : List Decimal :=
  (s.products.filter (fun p => p.product_id == product_id)).map (fun p => p.unit_price)

/-- The statement `INSERT INTO orders (...) VALUES ($1, ..., $6) RETURNING order_id`:
appends the row and returns the assigned id.  The id comes from the store's
serial and `created_at` from the store's clock, the two columns the statement
leaves to the store. -/
def Store.insertOrder (s : Store) (customer_name customer_phone : Option String)
    (total_amount : Double) (status : String)
    (payment_method transaction_code : Option String) :
    Nat × Store :=
  (s.next_order_id,
   { s with
     orders := s.orders ++ [{ order_id := s.next_order_id, customer_name := customer_name,
                              customer_phone := customer_phone, total_amount := total_amount,
                              status := status, payment_method := payment_method,
                              transaction_code := transaction_code,
                              created_at := some s.clock }],
     next_order_id := s.next_order_id + 1 })

/-- The statement `INSERT INTO order_items (...) VALUES ($1, ..., $5)`. -/
def Store.insertOrderItem (s : Store) (row : OrderItem) : Store :=
  { s with order_items := s.order_items ++ [row] }

/-- The rows of `SELECT * FROM orders WHERE order_id = $1`. -/
def Store.selectOrder (s : Store) (id : Nat) : List Order :=
  s.orders.filter (fun o => o.order_id == id)

/-- The rows of the join `order_items oi JOIN products p ON oi.product_id = p.product_id
WHERE oi.order_id = $1`. -/
def Store.selectOrderItems (s : Store) (id : Nat) : List ItemView :=
  (s.order_items.filter (fun oi => oi.order_id == id)).flatMap (fun oi =>
    (s.products.filter (fun p => oi.product_id == p.product_id)).map (fun p =>
      { product_id := oi.product_id, product_name := p.name, quantity := oi.quantity,
        unit_price := oi.unit_price, subtotal := oi.subtotal }))

/-! ## `POST /orders` -/

/-- The JavaScript `x || null` on an optional string: the empty string is falsy. -/
def orNull (x : Option String) : Option String :=
  match x with
  | some v => if v = "" then none else some v
  | none => none

/-- The first loop of the handler (lines 13-27), started at query number `k` with
running `total`.  It stops with the 500 response of the `catch` block when the
store rejects a lookup, with the 400 response at the first product id that has
no row, and otherwise yields the total and the items with their assigned
`unit_price` and `subtotal`. -/
def priceItems (s : Store) (faults : Faults) :
    List LineItem → Nat → Double → Except Response (Double × List PricedItem)
  | [], _, total => .ok (total, [])
  | item :: rest, k, total =>
    match faults k with
    | some msg => .error ⟨500, .error msg⟩
    | none =>
      match s.selectUnitPrice item.product_id with
      | [] => .error ⟨400, .error ("Product ID " ++ toString item.product_id ++ " not found")⟩
      | row :: _ =>
        let unitPrice := Number row
        let subtotal := unitPrice.mul (Double.ofInt item.quantity)
        match priceItems s faults rest (k + 1) (total.add subtotal) with
        | .error r => .error r
        | .ok (t, priced) =>
          .ok (t, { product_id := item.product_id, quantity := item.quantity,
                    unit_price := unitPrice, subtotal := subtotal } :: priced)

/-- The second loop of the handler (lines 40-46), started at query number `k`.
A rejected insert ends the loop with the error message; the rows written before
it stay in the returned store. -/
def insertItems (faults : Faults) (orderId : Nat) :
    List PricedItem → Nat → Store → Option String × Store
  | [], _, s => (none, s)
  | item :: rest, k, s =>
    match faults k with
    | some msg => (some msg, s)
    | none =>
      insertItems faults orderId rest (k + 1)
        (s.insertOrderItem { order_id := orderId, product_id := item.product_id,
                             quantity := item.quantity, unit_price := item.unit_price,
                             subtotal := item.subtotal })

/-- The handler `router.post('/')`: the response and the store it leaves. -/
def postOrder (s : Store) (req : OrderRequest) (faults : Faults) : Response × Store :=
  match priceItems s faults req.items 0 Double.zero with
  | .error r => (r, s)
  | .ok (total, items) =>
    match faults req.items.length with
    | some msg => (⟨500, .error msg⟩, s)
    | none =>
      let (orderId, s1) :=
        s.insertOrder (orNull req.customer_name) (orNull req.customer_phone) total "Paid"
          req.paymentMethod req.transactionCode
      match insertItems faults orderId items (req.items.length + 1) s1 with
      | (some msg, s2) => (⟨500, .error msg⟩, s2)
      | (none, s2) => (⟨200, .created "✅ Order created successfully" orderId total⟩, s2)

/-! ## `GET /orders/:id` -/

/-- The handler `router.get('/:id')`.  The route parameter is the key the store
compares with `order_id`. -/
def getOrder (s : Store) (id : Nat) (faults : Faults) : Response :=
  match faults 0 with
  | some _ => ⟨500, .error "Server error"⟩
  | none =>
    match s.selectOrder id with
    | [] => ⟨404, .error "Order not found"⟩
    | order :: _ =>
      match faults 1 with
      | some _ => ⟨500, .error "Server error"⟩
      | none => ⟨200, .orderWithItems order (s.selectOrderItems id)⟩

/-! ## `GET /orders/:id/receipt` -/

/-- The JavaScript `s.substring(start, end)`: both indices are clamped to the
length and swapped when `start > end`. -/
def substring (s : String) (start stop : Nat) : String :=
  let a := min start s.length
  let b := min stop s.length
  ⟨(s.data.take (max a b)).drop (min a b)⟩

/-- The JavaScript `s.padEnd(targetLength)` with the default pad string `" "`. -/
def padEnd (s : String) (targetLength : Nat) : String :=
  ⟨s.data ++ List.replicate (targetLength - s.length) ' '⟩

/-- The JavaScript `x || fallback` on an optional string. -/
def orElse (x : Option String) (fallback : String) : String :=
  match x with
  | some v => if v = "" then fallback else v
  | none => fallback

/-- The text a template literal gives for a nullable string column. -/
def jsString (x : Option String) : String :=
  match x with
  | some v => v
  | none => "null"

/-- The calls made on the PDF document, in order: `doc.fontSize(n)`,
`doc.text(content, { align })`, `doc.moveDown(lines)` with the line count in
tenths (`moveDown()` is one line), the horizontal rule
`doc.moveTo(10, doc.y).lineTo(210, doc.y).stroke()` and `doc.end()`. -/
inductive DocOp where
  | fontSize (size : Nat)
  | text (content : String) (align : Option String)
  | moveDown (tenths : Nat)
  | rule
  | finish
  deriving DecidableEq, Repr

/-- The rendering environment: the locale formatting of a timestamp and the
time of rendering. -/
structure RenderEnv where
  toLocaleString : Nat → String
  now : Nat

/-- The first twelve characters of the product name, padded to twelve
(`item.product_name.substring(0, 12).padEnd(12)`). -/
def nameColumn (product_name : String) : String :=
  padEnd (substring product_name 0 12) 12

/-- The text of one line of the items section (line 133); `Number(...)` of a
number is that number. -/
def itemLine (item : ItemView) : String :=
  nameColumn item.product_name ++ "  " ++ toString item.quantity ++ "   " ++
    toFixed2 item.unit_price ++ "   " ++ toFixed2 item.subtotal

/-- The texts of the customer block (lines 112-119), top to bottom. -/
def customerInfo (env : RenderEnv) (order : Order) : List String :=
  ["Order ID: " ++ toString order.order_id,
   "Customer: " ++ orElse order.customer_name "Walk-in",
   "Phone: " ++ orElse order.customer_phone "N/A",
   "Payment: " ++ jsString order.payment_method] ++
  (if order.payment_method = some "Mpesa" then
     ["Code: " ++ orElse order.transaction_code "---"]
   else []) ++
  ["Date: " ++ (match order.created_at with
                | some t => env.toLocaleString t
                | none => env.toLocaleString env.now)]

/-- The document written by the receipt handler for an order and its items
(lines 106-152). -/
def renderReceipt (env : RenderEnv) (order : Order) (items : List ItemView) : List DocOp :=
  [.fontSize 14, .text "AQUABLISS" (some "center"),
   .fontSize 10, .text "Water POS Receipt" (some "center"),
   .moveDown 10,
   .fontSize 9] ++
  (customerInfo env order).map (fun t => DocOp.text t none) ++
  [.moveDown 10,
   .fontSize 9, .text "Item       Qty   Price   Subtotal" none,
   .rule,
   .moveDown 3] ++
  items.flatMap (fun item => [DocOp.fontSize 9, DocOp.text (itemLine item) none]) ++
  [.moveDown 10,
   .rule,
   .fontSize 10, .text ("TOTAL: KES " ++ toFixed2 order.total_amount) (some "right"),
   .moveDown 10,
   .fontSize 8, .text " Thank you for choosing  AquaBliss!" (some "center"),
   .text "For enquiries: 0743970594 / 0708045934" (some "center"),
   .text "Email: aquabliss217@gmail.com" (some "center"),
   .finish]

/-- What the receipt handler sends: a JSON error, or the PDF with its headers. -/
inductive ReceiptResponse where
  | json (response : Response)
  | pdf (contentType : String) (contentDisposition : String) (doc : List DocOp)
  deriving DecidableEq, Repr

/-- The handler `router.get('/:id/receipt')`. -/
def getReceipt (env : RenderEnv) (s : Store) (id : Nat) (faults : Faults) : ReceiptResponse :=
  match faults 0 with
  | some _ => .json ⟨500, .error "Server error"⟩
  | none =>
    match s.selectOrder id with
    | [] => .json ⟨404, .error "Order not found"⟩
    | order :: _ =>
      match faults 1 with
      | some _ => .json ⟨500, .error "Server error"⟩
      | none =>
        .pdf "application/pdf" ("inline; filename=receipt-" ++ toString id ++ ".pdf")
          (renderReceipt env order (s.selectOrderItems id))

/-- Whether the characters of `p` open the string `s`. -/
def startsWith (p s : String) : Bool :=
  p.data.isPrefixOf s.data

/-! ## Notions used to state the properties -/

/-- Whether the catalog has a row for the product id. -/
def Store.hasProduct (s : Store) (product_id : Int) : Bool :=
  s.products.any (fun p => p.product_id == product_id)

/-- The unit price the catalog holds for a product id, if it has a row for it. -/
def Store.catalogPrice (s : Store) (product_id : Int) : Option Decimal :=
  (s.products.find? (fun p => p.product_id == product_id)).map (fun p => p.unit_price)

/-- The catalog after its unit prices were changed: every product keeps its id,
name, description and stock and gets the price `newPrice` gives it. -/
def Store.setPrices (s : Store) (newPrice : Product → Decimal) : Store :=
  { s with products := s.products.map (fun p => { p with unit_price := newPrice p }) }

/-- The serial of the store is ahead of every order id in use, in `orders` and
in `order_items`. -/
def Store.Fresh (s : Store) : Prop :=
  (∀ o ∈ s.orders, o.order_id < s.next_order_id) ∧
  (∀ oi ∈ s.order_items, oi.order_id < s.next_order_id)

/-- The line item as the specified request shape `{product_id, quantity}` has
it, without client-supplied price fields. -/
def LineItem.withoutPrices (item : LineItem) : LineItem :=
  { item with unit_price := none, subtotal := none }

/-- The request with the client-supplied price fields removed from every line item. -/
def OrderRequest.withoutPrices (req : OrderRequest) : OrderRequest :=
  { req with items := req.items.map LineItem.withoutPrices }

/-- The `orders` row written for a request with the given id, total and store time. -/
def orderRow (req : OrderRequest) (order_id : Nat) (total : Double) (clock : Nat) : Order :=
  { order_id := order_id, customer_name := orNull req.customer_name,
    customer_phone := orNull req.customer_phone, total_amount := total, status := "Paid",
    payment_method := req.paymentMethod, transaction_code := req.transactionCode,
    created_at := some clock }

/-- The exact product of a decimal and an integer. -/
def Decimal.mulInt (d : Decimal) (n : Int) : Decimal :=
  ⟨d.unscaled * n, d.scale⟩

/-- The exact sum of two decimals, at the larger of the two scales. -/
def Decimal.add (a b : Decimal) : Decimal :=
  ⟨a.unscaled * 10 ^ (max a.scale b.scale - a.scale) +
     b.unscaled * 10 ^ (max a.scale b.scale - b.scale), max a.scale b.scale⟩

/-- The exact decimal sum of `unit_price * quantity` over the lines. -/
def decimalTotal (price : Int → Decimal) (items : List LineItem) : Decimal :=
  items.foldl (fun total it => total.add ((price it.product_id).mulInt it.quantity)) ⟨0, 0⟩

/-- The subtotal of a line: the double product `Number(price) * quantity`. -/
def lineSubtotal (price : Decimal) (quantity : Int) : Double :=
  (Number price).mul (Double.ofInt quantity)

/-- The total of the lines: their subtotals added one after the other, in
request order, to the number 0, each sum rounded to a double. -/
def runningTotal (price : Int → Decimal) (items : List LineItem) : Double :=
  items.foldl (fun total it => total.add (lineSubtotal (price it.product_id) it.quantity))
    Double.zero

/-- The `order_items` row of a line item bought at catalog price `price` under
order `order_id`. -/
def itemRow (order_id : Nat) (price : Decimal) (item : LineItem) : OrderItem :=
  { order_id := order_id, product_id := item.product_id, quantity := item.quantity,
    unit_price := Number price, subtotal := lineSubtotal price item.quantity }

/-- The item the first loop leaves for a line bought at catalog price `price`. -/
def pricedAt (price : Decimal) (item : LineItem) : PricedItem :=
  { product_id := item.product_id, quantity := item.quantity, unit_price := Number price,
    subtotal := lineSubtotal price item.quantity }

/-! ## Example data -/

/-- A catalog entry priced 50.00. -/
def sampleProduct : Product :=
  { product_id := 1, name := "Water 20L", description := "Refill", unit_price := ⟨5000, 2⟩,
    stock_quantity := 40 }

/-- A store with one product and no orders. -/
def sampleStore : Store :=
  { products := [sampleProduct], orders := [], order_items := [], next_order_id := 1, clock := 7 }

/-- The request of the specification's example: two units of product 1. -/
def sampleRequest : OrderRequest :=
  { customer_name := some "Amina", customer_phone := none,
    items := [{ product_id := 1, quantity := 2, unit_price := none, subtotal := none }],
    paymentMethod := some "Mpesa", transactionCode := some "QWE123" }

/-- A store whose one product is priced 0.10. -/
def dimeStore : Store :=
  { products := [{ product_id := 1, name := "Sachet", description := "Single sachet",
                   unit_price := ⟨10, 2⟩, stock_quantity := 500 }],
    orders := [], order_items := [], next_order_id := 1, clock := 7 }

/-- Three units of product 1. -/
def dimeRequest : OrderRequest :=
  { customer_name := none, customer_phone := none,
    items := [{ product_id := 1, quantity := 3, unit_price := none, subtotal := none }],
    paymentMethod := some "Cash", transactionCode := none }

end AquaBliss

namespace AquaBliss

/-! ## Lemmas on the store queries -/

theorem filter_head_of_find? (ps : List Product) (pid : Int) (q : Product)
    (h : ps.find? (fun p => p.product_id == pid) = some q) :
    ∃ tl, ps.filter (fun p => p.product_id == pid) = q :: tl := by
  induction ps with
  | nil => simp at h
  | cons p ps ih =>
    by_cases hp : p.product_id = pid
    · simp only [List.find?_cons, hp, beq_self_eq_true, Option.some.injEq] at h
      subst h
      exact ⟨ps.filter (fun p => p.product_id == pid), by simp [List.filter_cons, hp]⟩
    · have hb : (p.product_id == pid) = false := by simpa using hp
      simp only [List.find?_cons, hb] at h
      simpa [List.filter_cons, hb] using ih h

theorem selectUnitPrice_of_catalogPrice (s : Store) (pid : Int) (price : Decimal)
    (h : s.catalogPrice pid = some price) :
    ∃ tl, s.selectUnitPrice pid = price :: tl := by
  unfold Store.catalogPrice at h
  unfold Store.selectUnitPrice
  cases hf : s.products.find? (fun p => p.product_id == pid) with
  | none => simp [hf] at h
  | some q =>
    obtain ⟨tl, htl⟩ := filter_head_of_find? s.products pid q hf
    simp only [hf, Option.map_some', Option.some.injEq] at h
    exact ⟨tl.map (fun p => p.unit_price), by simp [htl, h]⟩

theorem selectUnitPrice_of_not_hasProduct (s : Store) (pid : Int)
    (h : s.hasProduct pid = false) : s.selectUnitPrice pid = [] := by
  unfold Store.hasProduct at h
  unfold Store.selectUnitPrice
  simp only [List.any_eq_false, beq_iff_eq] at h
  simp only [List.map_eq_nil_iff, List.filter_eq_nil_iff, beq_iff_eq]
  exact h

theorem selectUnitPrice_of_hasProduct (s : Store) (pid : Int)
    (h : s.hasProduct pid = true) : ∃ price tl, s.selectUnitPrice pid = price :: tl := by
  cases hsel : s.selectUnitPrice pid with
  | cons price tl => exact ⟨price, tl, rfl⟩
  | nil =>
    exfalso
    unfold Store.hasProduct at h
    unfold Store.selectUnitPrice at hsel
    simp only [List.any_eq_true, beq_iff_eq] at h
    simp only [List.map_eq_nil_iff, List.filter_eq_nil_iff, beq_iff_eq] at hsel
    obtain ⟨p, hp, hpid⟩ := h
    exact hsel p hp hpid

theorem catalogPrice_of_hasProduct (s : Store) (pid : Int) (h : s.hasProduct pid = true) :
    s.catalogPrice pid = some ((s.catalogPrice pid).getD ⟨0, 0⟩) := by
  unfold Store.hasProduct at h
  simp only [List.any_eq_true, beq_iff_eq] at h
  obtain ⟨p, hp, hpid⟩ := h
  cases hf : s.products.find? (fun p => p.product_id == pid) with
  | none =>
    exfalso
    have := List.find?_eq_none.mp hf p hp
    simp [hpid] at this
  | some q => simp [Store.catalogPrice, hf]

/-! ## The two loops of order creation -/

theorem priceItems_all_present (s : Store) (faults : Faults) (price : Int → Decimal)
    (items : List LineItem) (k : Nat) (total : Double)
    (hfaults : ∀ j, j < items.length → faults (k + j) = none)
    (hprice : ∀ it ∈ items, s.catalogPrice it.product_id = some (price it.product_id)) :
    priceItems s faults items k total =
      .ok (items.foldl
             (fun acc it => acc.add (lineSubtotal (price it.product_id) it.quantity)) total,
           items.map (fun it => pricedAt (price it.product_id) it)) := by
  induction items generalizing k total with
  | nil => simp [priceItems]
  | cons it rest ih =>
    have h0 : faults k = none := by simpa using hfaults 0 (by simp)
    obtain ⟨tl, htl⟩ :=
      selectUnitPrice_of_catalogPrice s it.product_id (price it.product_id)
        (hprice it (by simp))
    have hrest := ih (k + 1) (total.add (lineSubtotal (price it.product_id) it.quantity))
      (fun j hj => by
        have := hfaults (j + 1) (by simpa using hj)
        rw [← this]; congr 1; omega)
      (fun x hx => hprice x (by simp [hx]))
    simp only [lineSubtotal] at hrest
    simp only [priceItems, h0, htl, hrest, List.map_cons, List.foldl_cons, pricedAt,
      lineSubtotal]

theorem insertItems_no_fault (faults : Faults) (orderId : Nat) (items : List PricedItem)
    (k : Nat) (s : Store) (hfaults : ∀ j, j < items.length → faults (k + j) = none) :
    insertItems faults orderId items k s =
      (none, { s with order_items := s.order_items ++ items.map (fun it =>
        { order_id := orderId, product_id := it.product_id, quantity := it.quantity,
          unit_price := it.unit_price, subtotal := it.subtotal }) }) := by
  induction items generalizing k s with
  | nil => simp [insertItems]
  | cons it rest ih =>
    have h0 : faults k = none := by simpa using hfaults 0 (by simp)
    have hrest := ih (k + 1)
      (s.insertOrderItem { order_id := orderId, product_id := it.product_id,
                           quantity := it.quantity, unit_price := it.unit_price,
                           subtotal := it.subtotal })
      (fun j hj => by
        have := hfaults (j + 1) (by simpa using hj)
        rw [← this]; congr 1; omega)
    simp only [insertItems, h0]
    rw [hrest]
    simp [Store.insertOrderItem]

/-- Order creation on a store that answers every query, for a request whose
lines all have a catalog price. -/
theorem postOrder_all_present (s : Store) (req : OrderRequest) (price : Int → Decimal)
    (hprice : ∀ it ∈ req.items, s.catalogPrice it.product_id = some (price it.product_id)) :
    postOrder s req noFaults =
      (⟨200, .created "✅ Order created successfully" s.next_order_id
          (runningTotal price req.items)⟩,
       { s with
         orders := s.orders ++
           [orderRow req s.next_order_id (runningTotal price req.items) s.clock],
         order_items := s.order_items ++
           req.items.map (fun it => itemRow s.next_order_id (price it.product_id) it),
         next_order_id := s.next_order_id + 1 }) := by
  unfold postOrder
  rw [priceItems_all_present s noFaults price req.items 0 Double.zero (fun _ _ => rfl) hprice]
  simp only [noFaults, Store.insertOrder]
  rw [insertItems_no_fault _ _ _ _ _ (fun _ _ => rfl)]
  simp [orderRow, itemRow, pricedAt, runningTotal, Function.comp_def]

theorem priceItems_first_missing (s : Store) (items : List LineItem) (k : Nat)
    (total : Double) (item : LineItem)
    (hfirst : items.find? (fun it => !s.hasProduct it.product_id) = some item) :
    priceItems s noFaults items k total =
      .error ⟨400, .error ("Product ID " ++ toString item.product_id ++ " not found")⟩ := by
  induction items generalizing k total with
  | nil => simp at hfirst
  | cons it rest ih =>
    cases hhas : s.hasProduct it.product_id with
    | false =>
      simp only [List.find?_cons, hhas, Bool.not_false, Option.some.injEq] at hfirst
      subst hfirst
      simp [priceItems, noFaults, selectUnitPrice_of_not_hasProduct s it.product_id hhas]
    | true =>
      simp only [List.find?_cons, hhas, Bool.not_true] at hfirst
      obtain ⟨price, tl, hsel⟩ := selectUnitPrice_of_hasProduct s it.product_id hhas
      simp [priceItems, noFaults, hsel, ih _ _ hfirst]

theorem priceItems_some_missing (s : Store) (faults : Faults) (items : List LineItem)
    (k : Nat) (total : Double) (item : LineItem)
    (hfirst : items.find? (fun it => !s.hasProduct it.product_id) = some item) :
    ∃ r, priceItems s faults items k total = .error r := by
  induction items generalizing k total with
  | nil => simp at hfirst
  | cons it rest ih =>
    cases hf : faults k with
    | some msg => exact ⟨⟨500, .error msg⟩, by simp [priceItems, hf]⟩
    | none =>
      cases hhas : s.hasProduct it.product_id with
      | false =>
        exact ⟨⟨400, .error ("Product ID " ++ toString it.product_id ++ " not found")⟩, by
          simp [priceItems, hf, selectUnitPrice_of_not_hasProduct s it.product_id hhas]⟩
      | true =>
        simp only [List.find?_cons, hhas, Bool.not_true] at hfirst
        obtain ⟨price, tl, hsel⟩ := selectUnitPrice_of_hasProduct s it.product_id hhas
        obtain ⟨r, hr⟩ := ih (k + 1)
          (total.add ((Number price).mul (Double.ofInt it.quantity))) hfirst
        exact ⟨r, by simp [priceItems, hf, hsel, hr]⟩

theorem filter_order_id_of_lt (rows : List OrderItem) (id : Nat)
    (h : ∀ oi ∈ rows, oi.order_id < id) :
    rows.filter (fun oi => oi.order_id == id) = [] := by
  simp only [List.filter_eq_nil_iff, beq_iff_eq]
  intro oi hoi heq
  have := h oi hoi
  omega

theorem filter_itemRow (id : Nat) (price : Int → Decimal) (items : List LineItem) :
    (items.map (fun it => itemRow id (price it.product_id) it)).filter
        (fun oi => oi.order_id == id) =
      items.map (fun it => itemRow id (price it.product_id) it) := by
  simp only [List.filter_eq_self, List.mem_map, beq_iff_eq]
  rintro oi ⟨it, _, rfl⟩
  rfl

/-! ## Properties of order creation -/

/-- C1, as stated, fails: for three units of a product priced 0.10 the decimal
sum of `unit_price * quantity` is 0.30, but the total returned and written to
the `orders` row is the double 0.30000000000000004, the one next above the
double of 0.30; the subtotal of the `order_items` row is that double too. -/
theorem postOrder_total_not_decimal_sum :
    (∀ it ∈ dimeRequest.items, dimeStore.catalogPrice it.product_id = some ⟨10, 2⟩) ∧
    decimalTotal (fun _ => ⟨10, 2⟩) dimeRequest.items = ⟨30, 2⟩ ∧
    Number ⟨30, 2⟩ = .fin false 5404319552844595 (-54) ∧
    postOrder dimeStore dimeRequest noFaults =
      (⟨200, .created "✅ Order created successfully" 1 (.fin false 5404319552844596 (-54))⟩,
       { dimeStore with
         orders := [orderRow dimeRequest 1 (.fin false 5404319552844596 (-54)) 7],
         order_items := [{ order_id := 1, product_id := 1, quantity := 3,
                           unit_price := Number ⟨10, 2⟩,
                           subtotal := .fin false 5404319552844596 (-54) }],
         next_order_id := 2 }) ∧
    (postOrder dimeStore dimeRequest noFaults).1 ≠
      ⟨200, .created "✅ Order created successfully" 1
        (Number (decimalTotal (fun _ => ⟨10, 2⟩) dimeRequest.items))⟩ := by
  decide

/-- C1, amended: when every line item of the request has a catalog price and
the store answers every query, order creation responds 200 with the total got by
adding the double products `Number(unit_price) * quantity` to 0 in request
order, appends one `orders` row holding that same total and appends one
`order_items` row per line item, in request order, each under the new order id
with `unit_price = Number(catalog unit_price)` and `subtotal` the double product
`unit_price * quantity`; on a store whose serial is fresh these are exactly the
`order_items` rows that reference the new order. -/
theorem postOrder_total_and_items (s : Store) (req : OrderRequest) (price : Int → Decimal)
    (hprice : ∀ it ∈ req.items, s.catalogPrice it.product_id = some (price it.product_id)) :
    postOrder s req noFaults =
      (⟨200, .created "✅ Order created successfully" s.next_order_id
          (runningTotal price req.items)⟩,
       { s with
         orders := s.orders ++
           [orderRow req s.next_order_id (runningTotal price req.items) s.clock],
         order_items := s.order_items ++
           req.items.map (fun it => itemRow s.next_order_id (price it.product_id) it),
         next_order_id := s.next_order_id + 1 }) ∧
    (req.items.map (fun it => itemRow s.next_order_id (price it.product_id) it)).length =
      req.items.length ∧
    (∀ row ∈ req.items.map (fun it => itemRow s.next_order_id (price it.product_id) it),
      row.order_id = s.next_order_id ∧
      row.subtotal = row.unit_price.mul (Double.ofInt row.quantity)) ∧
    (s.Fresh →
      (postOrder s req noFaults).2.order_items.filter
          (fun oi => oi.order_id == s.next_order_id) =
        req.items.map (fun it => itemRow s.next_order_id (price it.product_id) it)) := by
  refine ⟨postOrder_all_present s req price hprice, by simp, ?_, ?_⟩
  · intro row hrow
    obtain ⟨it, _, rfl⟩ := List.mem_map.mp hrow
    exact ⟨rfl, rfl⟩
  · intro hfresh
    rw [postOrder_all_present s req price hprice]
    simp only [List.filter_append,
      filter_order_id_of_lt s.order_items s.next_order_id hfresh.2, filter_itemRow,
      List.nil_append]

/-- The specification's example: two units of a product priced 50.00 give the
total 100.00 and one `order_items` row with unit price 50.00 and subtotal
100.00, all exact. -/
theorem postOrder_total_and_items_witness :
    (∀ it ∈ sampleRequest.items,
      sampleStore.catalogPrice it.product_id = some ((fun _ => ⟨5000, 2⟩) it.product_id)) ∧
    Number ⟨10000, 2⟩ = Double.ofInt 100 ∧
    postOrder sampleStore sampleRequest noFaults =
      (⟨200, .created "✅ Order created successfully" 1 (Double.ofInt 100)⟩,
       { sampleStore with
         orders := [orderRow sampleRequest 1 (Double.ofInt 100) 7],
         order_items := [{ order_id := 1, product_id := 1, quantity := 2,
                           unit_price := Double.ofInt 50, subtotal := Double.ofInt 100 }],
         next_order_id := 2 }) :=
  ⟨by decide, by decide,
   (postOrder_total_and_items sampleStore sampleRequest (fun _ => ⟨5000, 2⟩)
      (by decide)).1.trans (by decide)⟩

/-- C2: when some line item references a product id the catalog lacks, order
creation leaves the store as it was, whatever the store does with the lookups,
and on a store that answers every query it responds 400 with
`Product ID <id> not found` for the first such id in request order. -/
theorem postOrder_missing_product (s : Store) (req : OrderRequest) (item : LineItem)
    (hfirst : req.items.find? (fun it => !s.hasProduct it.product_id) = some item) :
    postOrder s req noFaults =
      (⟨400, .error ("Product ID " ++ toString item.product_id ++ " not found")⟩, s) ∧
    ∀ faults : Faults, (postOrder s req faults).2 = s := by
  constructor
  · simp [postOrder, priceItems_first_missing s req.items 0 Double.zero item hfirst]
  · intro faults
    obtain ⟨r, hr⟩ := priceItems_some_missing s faults req.items 0 Double.zero item hfirst
    simp [postOrder, hr]

/-- A request whose second line names product 9, which the sample catalog lacks. -/
theorem postOrder_missing_product_witness :
    ([{ product_id := 1, quantity := 2, unit_price := none, subtotal := none },
      { product_id := 9, quantity := 1, unit_price := none, subtotal := none },
      { product_id := 4, quantity := 1, unit_price := none, subtotal := none }] :
        List LineItem).find? (fun it => !sampleStore.hasProduct it.product_id) =
      some { product_id := 9, quantity := 1, unit_price := none, subtotal := none } ∧
    (postOrder sampleStore
        { sampleRequest with items :=
            [{ product_id := 1, quantity := 2, unit_price := none, subtotal := none },
             { product_id := 9, quantity := 1, unit_price := none, subtotal := none },
             { product_id := 4, quantity := 1, unit_price := none, subtotal := none }] }
        noFaults =
      (⟨400, .error "Product ID 9 not found"⟩, sampleStore)) :=
  ⟨by decide,
   (postOrder_missing_product sampleStore
      { sampleRequest with items :=
          [{ product_id := 1, quantity := 2, unit_price := none, subtotal := none },
           { product_id := 9, quantity := 1, unit_price := none, subtotal := none },
           { product_id := 4, quantity := 1, unit_price := none, subtotal := none }] }
      { product_id := 9, quantity := 1, unit_price := none, subtotal := none }
      (by decide)).1⟩

/-- C3, as stated, fails: a request with no line items is answered 200 with
total 0 and its `orders` row is written. -/
theorem postOrder_empty_items_accepted :
    (postOrder sampleStore { sampleRequest with items := [] } noFaults).1 =
      ⟨200, .created "✅ Order created successfully" 1 Double.zero⟩ ∧
    (postOrder sampleStore { sampleRequest with items := [] } noFaults).2.orders =
      [{ order_id := 1, customer_name := some "Amina", customer_phone := none,
         total_amount := Double.zero, status := "Paid", payment_method := some "Mpesa",
         transaction_code := some "QWE123", created_at := some 7 }] ∧
    (postOrder sampleStore { sampleRequest with items := [] } noFaults).2.orders ≠
      sampleStore.orders := by
  decide

/-- C3, amended: for a request with an empty list of line items, on a store that
answers every query, order creation responds 200 with total 0, appends one
`orders` row with `total_amount = 0` and writes no `order_items` row. -/
theorem postOrder_empty_items (s : Store) (req : OrderRequest) (hempty : req.items = []) :
    postOrder s req noFaults =
      (⟨200, .created "✅ Order created successfully" s.next_order_id Double.zero⟩,
       { s with
         orders := s.orders ++ [orderRow req s.next_order_id Double.zero s.clock],
         next_order_id := s.next_order_id + 1 }) := by
  have h := postOrder_all_present s req (fun _ => ⟨0, 0⟩) (by simp [hempty])
  simpa [hempty, runningTotal] using h

/-- The empty request on the sample store. -/
theorem postOrder_empty_items_witness :
    ({ sampleRequest with items := [] } : OrderRequest).items = [] ∧
    postOrder sampleStore { sampleRequest with items := [] } noFaults =
      (⟨200, .created "✅ Order created successfully" 1 Double.zero⟩,
       { sampleStore with
         orders := [orderRow { sampleRequest with items := [] } 1 Double.zero 7],
         next_order_id := 2 }) :=
  ⟨rfl, postOrder_empty_items sampleStore { sampleRequest with items := [] } rfl⟩

/-! ## Properties of the order query -/

/-- C5, as stated, fails: the sample store holds no order 5, the store rejects
the lookup, and `GET /orders/5` is answered 500. -/
theorem getOrder_unknown_id_server_error :
    (∀ o ∈ sampleStore.orders, o.order_id ≠ 5) ∧
    getOrder sampleStore 5 (fun _ => some "store rejected the query") =
      ⟨500, .error "Server error"⟩ ∧
    (getOrder sampleStore 5 (fun _ => some "store rejected the query")).status = 500 := by
  decide

/-- C5, amended: when no order has the requested id, `GET /orders/:id` responds
404 with `Order not found` if the store answers the order lookup, and 500 with
`Server error` if the store rejects it. -/
theorem getOrder_unknown_id (s : Store) (id : Nat) (faults : Faults)
    (hunknown : ∀ o ∈ s.orders, o.order_id ≠ id) :
    getOrder s id faults =
      (match faults 0 with
       | none => ⟨404, .error "Order not found"⟩
       | some _ => ⟨500, .error "Server error"⟩) := by
  have hsel : s.selectOrder id = [] := by
    unfold Store.selectOrder
    simp only [List.filter_eq_nil_iff, beq_iff_eq]
    exact hunknown
  unfold getOrder
  cases faults 0 with
  | none => simp [hsel]
  | some msg => rfl

/-- Order 5 on the sample store, which holds no orders, with the store
answering. -/
theorem getOrder_unknown_id_witness :
    (∀ o ∈ sampleStore.orders, o.order_id ≠ 5) ∧
    getOrder sampleStore 5 noFaults = ⟨404, .error "Order not found"⟩ :=
  ⟨by decide, getOrder_unknown_id sampleStore 5 noFaults (by decide)⟩

theorem filter_setPrices (ps : List Product) (newPrice : Product → Decimal) (pid : Int) :
    (ps.map (fun p => ({ p with unit_price := newPrice p } : Product))).filter
        (fun p => pid == p.product_id) =
      (ps.filter (fun p => pid == p.product_id)).map
        (fun p => ({ p with unit_price := newPrice p } : Product)) := by
  rw [List.filter_map]
  rfl

theorem selectOrderItems_setPrices (s : Store) (newPrice : Product → Decimal) (id : Nat) :
    (s.setPrices newPrice).selectOrderItems id = s.selectOrderItems id := by
  unfold Store.selectOrderItems Store.setPrices
  simp only
  congr 1
  funext oi
  rw [filter_setPrices, List.map_map]
  rfl

theorem getOrder_setPrices (s : Store) (newPrice : Product → Decimal) (id : Nat) (faults : Faults) :
    getOrder (s.setPrices newPrice) id faults = getOrder s id faults := by
  unfold getOrder
  rw [selectOrderItems_setPrices]
  rfl

theorem getOrder_created (s : Store) (req : OrderRequest) (price : Int → Decimal)
    (hfresh : s.Fresh)
    (hprice : ∀ it ∈ req.items, s.catalogPrice it.product_id = some (price it.product_id)) :
    getOrder (postOrder s req noFaults).2 s.next_order_id noFaults =
      ⟨200, .orderWithItems
        (orderRow req s.next_order_id
          (runningTotal price req.items) s.clock)
        (req.items.flatMap (fun it =>
          (s.products.filter (fun p => it.product_id == p.product_id)).map (fun p =>
            { product_id := it.product_id, product_name := p.name, quantity := it.quantity,
              unit_price := Number (price it.product_id),
              subtotal := lineSubtotal (price it.product_id) it.quantity })))⟩ := by
  rw [postOrder_all_present s req price hprice]
  have hold : s.orders.filter (fun o => o.order_id == s.next_order_id) = [] := by
    simp only [List.filter_eq_nil_iff, beq_iff_eq]
    intro o ho heq
    have := hfresh.1 o ho
    omega
  have hsel : Store.selectOrder
      { s with
        orders := s.orders ++
          [orderRow req s.next_order_id
            (runningTotal price req.items) s.clock],
        order_items := s.order_items ++
          req.items.map (fun it => itemRow s.next_order_id (price it.product_id) it),
        next_order_id := s.next_order_id + 1 } s.next_order_id =
      [orderRow req s.next_order_id
        (runningTotal price req.items) s.clock] := by
    simp [Store.selectOrder, List.filter_append, hold, orderRow, List.filter_cons]
  unfold getOrder
  rw [hsel]
  simp only [noFaults, Store.selectOrderItems, List.filter_append,
    filter_order_id_of_lt s.order_items s.next_order_id hfresh.2, filter_itemRow,
    List.nil_append]
  simp [List.flatMap, List.map_map, Function.comp_def, itemRow]

/-- C4: after an order was created (fresh store serial, every line priced in the
catalog, store answering every query) and the catalog prices were changed in any
way, `GET /orders/:id` for the new order returns the order row and, per line
item, the unit price the catalog held at creation (as the number
`Number(unit_price)`) and the subtotal computed from it at creation; the
response is the one given before the price change. -/
theorem getOrder_returns_snapshot (s : Store) (req : OrderRequest) (price : Int → Decimal)
    (newPrice : Product → Decimal) (hfresh : s.Fresh)
    (hprice : ∀ it ∈ req.items, s.catalogPrice it.product_id = some (price it.product_id)) :
    getOrder ((postOrder s req noFaults).2.setPrices newPrice) s.next_order_id noFaults =
      ⟨200, .orderWithItems
        (orderRow req s.next_order_id
          (runningTotal price req.items) s.clock)
        (req.items.flatMap (fun it =>
          (s.products.filter (fun p => it.product_id == p.product_id)).map (fun p =>
            { product_id := it.product_id, product_name := p.name, quantity := it.quantity,
              unit_price := Number (price it.product_id),
              subtotal := lineSubtotal (price it.product_id) it.quantity })))⟩ ∧
    getOrder ((postOrder s req noFaults).2.setPrices newPrice) s.next_order_id noFaults =
      getOrder (postOrder s req noFaults).2 s.next_order_id noFaults := by
  rw [getOrder_setPrices]
  exact ⟨getOrder_created s req price hfresh hprice, rfl⟩

/-- The sample order is created at 50.00, the catalog is then repriced to 99.00,
and the query still shows 50.00 and 100.00. -/
theorem getOrder_returns_snapshot_witness :
    sampleStore.Fresh ∧
    (∀ it ∈ sampleRequest.items,
      sampleStore.catalogPrice it.product_id = some ((fun _ => ⟨5000, 2⟩) it.product_id)) ∧
    ((postOrder sampleStore sampleRequest noFaults).2.setPrices
        (fun _ => ⟨9900, 2⟩)).catalogPrice 1 = some ⟨9900, 2⟩ ∧
    getOrder ((postOrder sampleStore sampleRequest noFaults).2.setPrices (fun _ => ⟨9900, 2⟩)) 1
        noFaults =
      ⟨200, .orderWithItems (orderRow sampleRequest 1 (Double.ofInt 100) 7)
        [{ product_id := 1, product_name := "Water 20L", quantity := 2,
           unit_price := Double.ofInt 50, subtotal := Double.ofInt 100 }]⟩ :=
  ⟨⟨by decide, by decide⟩, by decide, by decide,
   (getOrder_returns_snapshot sampleStore sampleRequest (fun _ => ⟨5000, 2⟩)
      (fun _ => ⟨9900, 2⟩) ⟨by decide, by decide⟩ (by decide)).1.trans (by decide)⟩

/-! ## Quantities and client-supplied prices -/

theorem priceItems_ok_quantities (s : Store) (faults : Faults) (items : List LineItem)
    (k : Nat) (total t : Double) (priced : List PricedItem)
    (h : priceItems s faults items k total = .ok (t, priced)) :
    priced.map (fun it => it.quantity) = items.map (fun it => it.quantity) := by
  induction items generalizing k total t priced with
  | nil =>
    simp only [priceItems, Except.ok.injEq, Prod.mk.injEq] at h
    simp [← h.2]
  | cons it rest ih =>
    simp only [priceItems] at h
    split at h
    · cases h
    · split at h
      · cases h
      · split at h
        · cases h
        · rename_i t1 priced1 hrec
          simp only [Except.ok.injEq, Prod.mk.injEq] at h
          rw [← h.2]
          simp [ih _ _ _ _ hrec]

theorem insertItems_none_rows (faults : Faults) (orderId : Nat) (items : List PricedItem)
    (k : Nat) (s s2 : Store) (h : insertItems faults orderId items k s = (none, s2)) :
    s2.order_items = s.order_items ++ items.map (fun it =>
      ({ order_id := orderId, product_id := it.product_id, quantity := it.quantity,
         unit_price := it.unit_price, subtotal := it.subtotal } : OrderItem)) := by
  induction items generalizing k s with
  | nil =>
    simp only [insertItems, Prod.mk.injEq, true_and] at h
    simp [← h]
  | cons it rest ih =>
    simp only [insertItems] at h
    split at h
    · simp at h
    · rw [ih _ _ h]
      simp [Store.insertOrderItem]

theorem priceItems_error_status (s : Store) (faults : Faults) (items : List LineItem)
    (k : Nat) (total : Double) (r : Response)
    (h : priceItems s faults items k total = .error r) : r.status ≠ 200 := by
  induction items generalizing k total with
  | nil => simp [priceItems] at h
  | cons it rest ih =>
    simp only [priceItems] at h
    split at h
    · simp only [Except.error.injEq] at h
      simp [← h]
    · split at h
      · simp only [Except.error.injEq] at h
        simp [← h]
      · split at h
        · rename_i r1 hrec
          simp only [Except.error.injEq] at h
          subst h
          exact ih _ _ hrec
        · cases h

theorem postOrder_accepted_rows (s : Store) (req : OrderRequest) (faults : Faults)
    (haccepted : (postOrder s req faults).1.status = 200) :
    ∃ rows : List OrderItem,
      (postOrder s req faults).2.order_items = s.order_items ++ rows ∧
      rows.map (fun r => r.quantity) = req.items.map (fun it => it.quantity) := by
  unfold postOrder at haccepted ⊢
  cases hp : priceItems s faults req.items 0 Double.zero with
  | error r =>
    rw [hp] at haccepted
    exact absurd haccepted (priceItems_error_status s faults req.items 0 Double.zero r hp)
  | ok res =>
    obtain ⟨total, priced⟩ := res
    rw [hp] at haccepted
    simp only at haccepted ⊢
    cases hf : faults req.items.length with
    | some msg => simp [hf] at haccepted
    | none =>
      simp only [hf, Store.insertOrder] at haccepted ⊢
      cases hi : insertItems faults s.next_order_id priced (req.items.length + 1)
          { s with
            orders := s.orders ++
              [{ order_id := s.next_order_id, customer_name := orNull req.customer_name,
                 customer_phone := orNull req.customer_phone, total_amount := total,
                 status := "Paid", payment_method := req.paymentMethod,
                 transaction_code := req.transactionCode, created_at := some s.clock }],
            next_order_id := s.next_order_id + 1 } with
      | mk res s2 =>
        cases res with
        | some msg => simp [hi] at haccepted
        | none =>
          have hrows := insertItems_none_rows _ _ _ _ _ _ hi
          simp only [hi]
          refine ⟨_, hrows, ?_⟩
          rw [← priceItems_ok_quantities s faults req.items 0 Double.zero total priced hp]
          simp [List.map_map, Function.comp_def]

/-- C8, as stated, fails: a request with a line of quantity 0 and a line of
quantity -2 for a catalog product is accepted, and both `order_items` rows are
written with these quantities. -/
theorem postOrder_nonpositive_quantity_accepted :
    (postOrder sampleStore
        { sampleRequest with items :=
            [{ product_id := 1, quantity := 0, unit_price := none, subtotal := none },
             { product_id := 1, quantity := -2, unit_price := none, subtotal := none }] }
        noFaults).1 = ⟨200, .created "✅ Order created successfully" 1 (Double.ofInt (-100))⟩ ∧
    (postOrder sampleStore
        { sampleRequest with items :=
            [{ product_id := 1, quantity := 0, unit_price := none, subtotal := none },
             { product_id := 1, quantity := -2, unit_price := none, subtotal := none }] }
        noFaults).2.order_items =
      [{ order_id := 1, product_id := 1, quantity := 0, unit_price := Double.ofInt 50,
         subtotal := Double.zero },
       { order_id := 1, product_id := 1, quantity := -2, unit_price := Double.ofInt 50,
         subtotal := Double.ofInt (-100) }] ∧
    ¬ ∀ row ∈ (postOrder sampleStore
        { sampleRequest with items :=
            [{ product_id := 1, quantity := 0, unit_price := none, subtotal := none },
             { product_id := 1, quantity := -2, unit_price := none, subtotal := none }] }
        noFaults).2.order_items, 0 < row.quantity := by
  decide

/-- C8, amended: whatever the quantities of a request whose line items all
reference catalog products, zero and negative ones included, order creation on a
store that answers every query accepts it (status 200) and appends
`order_items` rows that carry, in order, the requested quantities unchanged;
under any behaviour of the store, the rows appended for an accepted request
carry the requested quantities, so each is positive whenever every requested
quantity is. -/
theorem postOrder_item_quantities (s : Store) (req : OrderRequest)
    (hpresent : ∀ it ∈ req.items, s.hasProduct it.product_id = true) :
    (postOrder s req noFaults).1.status = 200 ∧
    (postOrder s req noFaults).2.order_items.take s.order_items.length = s.order_items ∧
    ((postOrder s req noFaults).2.order_items.drop s.order_items.length).map
        (fun row => row.quantity) = req.items.map (fun it => it.quantity) ∧
    ∀ faults : Faults, (postOrder s req faults).1.status = 200 →
      (postOrder s req faults).2.order_items.take s.order_items.length = s.order_items ∧
      ((postOrder s req faults).2.order_items.drop s.order_items.length).map
          (fun row => row.quantity) = req.items.map (fun it => it.quantity) ∧
      ((∀ it ∈ req.items, 0 < it.quantity) →
        ∀ row ∈ (postOrder s req faults).2.order_items.drop s.order_items.length,
          0 < row.quantity) := by
  have hgeneral : ∀ faults : Faults, (postOrder s req faults).1.status = 200 →
      (postOrder s req faults).2.order_items.take s.order_items.length = s.order_items ∧
      ((postOrder s req faults).2.order_items.drop s.order_items.length).map
          (fun row => row.quantity) = req.items.map (fun it => it.quantity) ∧
      ((∀ it ∈ req.items, 0 < it.quantity) →
        ∀ row ∈ (postOrder s req faults).2.order_items.drop s.order_items.length,
          0 < row.quantity) := by
    intro faults haccepted
    obtain ⟨rows, hrows, hq⟩ := postOrder_accepted_rows s req faults haccepted
    rw [hrows]
    simp only [List.take_left', List.drop_left', true_and]
    refine ⟨hq, ?_⟩
    intro hpos row hrow
    have hmem : row.quantity ∈ rows.map (fun r => r.quantity) := List.mem_map_of_mem _ hrow
    rw [hq] at hmem
    obtain ⟨it, hit, heq⟩ := List.mem_map.mp hmem
    rw [← heq]
    exact hpos it hit
  have haccepted : (postOrder s req noFaults).1.status = 200 := by
    rw [postOrder_all_present s req (fun pid => (s.catalogPrice pid).getD ⟨0, 0⟩)
      (fun it hit => catalogPrice_of_hasProduct s it.product_id (hpresent it hit))]
  exact ⟨haccepted, (hgeneral noFaults haccepted).1, (hgeneral noFaults haccepted).2.1,
    hgeneral⟩

/-- A request for -2 units of the sample product is accepted and its row has
the requested quantity -2. -/
theorem postOrder_item_quantities_witness :
    (∀ it ∈ ({ sampleRequest with items :=
        [{ product_id := 1, quantity := -2, unit_price := none, subtotal := none }] } :
          OrderRequest).items, sampleStore.hasProduct it.product_id = true) ∧
    (postOrder sampleStore
        { sampleRequest with items :=
            [{ product_id := 1, quantity := -2, unit_price := none, subtotal := none }] }
        noFaults).1.status = 200 ∧
    ((postOrder sampleStore
        { sampleRequest with items :=
            [{ product_id := 1, quantity := -2, unit_price := none, subtotal := none }] }
        noFaults).2.order_items.drop sampleStore.order_items.length).map
        (fun row => row.quantity) = [-2] :=
  ⟨by decide,
   (postOrder_item_quantities sampleStore
      { sampleRequest with items :=
          [{ product_id := 1, quantity := -2, unit_price := none, subtotal := none }] }
      (by decide)).1,
   (postOrder_item_quantities sampleStore
      { sampleRequest with items :=
          [{ product_id := 1, quantity := -2, unit_price := none, subtotal := none }] }
      (by decide)).2.2.1⟩

/-- C9: there are a request with two valid line items and a store that rejects
the second `order_items` insert for which order creation responds 500 while the
store keeps the new `orders` row and only one of the two `order_items` rows. -/
theorem postOrder_partial_write :
    ∃ (s : Store) (req : OrderRequest) (faults : Faults),
      1 ≤ req.items.length ∧
      (∀ it ∈ req.items, s.hasProduct it.product_id = true) ∧
      (∀ k, k ≤ req.items.length → faults k = none) ∧
      (∃ j, j < req.items.length ∧ (faults (req.items.length + 1 + j)).isSome = true) ∧
      (postOrder s req faults).1.status = 500 ∧
      (∃ o ∈ (postOrder s req faults).2.orders, o.order_id = s.next_order_id ∧ o ∉ s.orders) ∧
      ((postOrder s req faults).2.order_items.filter
          (fun oi => oi.order_id == s.next_order_id)).length < req.items.length :=
  ⟨sampleStore,
   { sampleRequest with items :=
       [{ product_id := 1, quantity := 2, unit_price := none, subtotal := none },
        { product_id := 1, quantity := 3, unit_price := none, subtotal := none }] },
   fun k => if k = 4 then some "connection terminated" else none,
   by decide, by decide,
   by intro k hk; have : k ≠ 4 := by simp at hk; omega
      simp [this],
   ⟨1, by decide, by decide⟩, by decide,
   ⟨orderRow sampleRequest 1 (Double.ofInt 250) 7, by decide, by decide, by decide⟩,
   by decide⟩

theorem priceItems_withoutPrices (s : Store) (faults : Faults) (items : List LineItem)
    (k : Nat) (total : Double) :
    priceItems s faults (items.map LineItem.withoutPrices) k total =
      priceItems s faults items k total := by
  induction items generalizing k total with
  | nil => rfl
  | cons it rest ih => simp only [List.map_cons, priceItems, LineItem.withoutPrices, ih]

theorem postOrder_withoutPrices (s : Store) (req : OrderRequest) (faults : Faults) :
    postOrder s req.withoutPrices faults = postOrder s req faults := by
  simp only [postOrder, OrderRequest.withoutPrices, priceItems_withoutPrices, List.length_map]

/-- C10: two requests that agree once the client-supplied `unit_price` and
`subtotal` fields are removed from their line items get the same response and
leave the same store, whatever the store does with the queries. -/
theorem postOrder_ignores_client_prices (s : Store) (req1 req2 : OrderRequest)
    (faults : Faults) (hsame : req1.withoutPrices = req2.withoutPrices) :
    postOrder s req1 faults = postOrder s req2 faults := by
  rw [← postOrder_withoutPrices s req1, ← postOrder_withoutPrices s req2, hsame]

/-- The sample request and a copy whose line claims a unit price of 0.01 and a
subtotal of 0.02 are both charged 100.00. -/
theorem postOrder_ignores_client_prices_witness :
    sampleRequest.withoutPrices =
      ({ sampleRequest with items :=
          [{ product_id := 1, quantity := 2, unit_price := some (Number ⟨1, 2⟩), subtotal := some (Number ⟨2, 2⟩) }] } :
        OrderRequest).withoutPrices ∧
    postOrder sampleStore sampleRequest noFaults =
      postOrder sampleStore
        { sampleRequest with items :=
            [{ product_id := 1, quantity := 2, unit_price := some (Number ⟨1, 2⟩), subtotal := some (Number ⟨2, 2⟩) }] }
        noFaults :=
  ⟨by decide,
   postOrder_ignores_client_prices sampleStore sampleRequest
     { sampleRequest with items :=
         [{ product_id := 1, quantity := 2, unit_price := some (Number ⟨1, 2⟩), subtotal := some (Number ⟨2, 2⟩) }] }
     noFaults (by decide)⟩

/-! ## Properties of the receipt -/

theorem startsWith_code_orderId (x : String) :
    startsWith "Code: " ("Order ID: " ++ x) = false := by
  unfold startsWith
  rw [String.data_append]
  rfl

theorem startsWith_code_customer (x : String) :
    startsWith "Code: " ("Customer: " ++ x) = false := by
  unfold startsWith
  rw [String.data_append]
  rfl

theorem startsWith_code_phone (x : String) :
    startsWith "Code: " ("Phone: " ++ x) = false := by
  unfold startsWith
  rw [String.data_append]
  rfl

theorem startsWith_code_payment (x : String) :
    startsWith "Code: " ("Payment: " ++ x) = false := by
  unfold startsWith
  rw [String.data_append]
  rfl

theorem startsWith_code_date (x : String) :
    startsWith "Code: " ("Date: " ++ x) = false := by
  unfold startsWith
  rw [String.data_append]
  rfl

theorem startsWith_code_code (x : String) :
    startsWith "Code: " ("Code: " ++ x) = true := by
  unfold startsWith
  rw [String.data_append]
  simp [List.isPrefixOf]

/-- C6: the lines of the receipt's customer block that open with `Code: ` are
the single line `Code: <transaction code>` when the payment method is `Mpesa`,
with `---` in place of a null or empty transaction code, and there is none for
any other payment method; every line of the block is written to the receipt. -/
theorem customerInfo_code_line (env : RenderEnv) (order : Order) (items : List ItemView) :
    (customerInfo env order).filter (startsWith "Code: ") =
      (if order.payment_method = some "Mpesa" then
         ["Code: " ++ (match order.transaction_code with
                       | some code => if code = "" then "---" else code
                       | none => "---")]
       else []) ∧
    ((∃ line ∈ customerInfo env order, startsWith "Code: " line = true) ↔
      order.payment_method = some "Mpesa") ∧
    (∀ line ∈ customerInfo env order, DocOp.text line none ∈ renderReceipt env order items) := by
  have hfilter : (customerInfo env order).filter (startsWith "Code: ") =
      (if order.payment_method = some "Mpesa" then
         ["Code: " ++ orElse order.transaction_code "---"]
       else []) := by
    unfold customerInfo
    by_cases hm : order.payment_method = some "Mpesa"
    · simp [hm, List.filter_cons, startsWith_code_orderId, startsWith_code_customer,
        startsWith_code_phone, startsWith_code_payment, startsWith_code_date,
        startsWith_code_code]
    · simp [hm, List.filter_cons, startsWith_code_orderId, startsWith_code_customer,
        startsWith_code_phone, startsWith_code_payment, startsWith_code_date]
  refine ⟨?_, ?_, ?_⟩
  · rw [hfilter]
    cases order.transaction_code <;> rfl
  · constructor
    · rintro ⟨line, hline, hstart⟩
      by_contra hm
      have hmem : line ∈ (customerInfo env order).filter (startsWith "Code: ") :=
        List.mem_filter.mpr ⟨hline, hstart⟩
      rw [hfilter, if_neg hm] at hmem
      simp at hmem
    · intro hm
      have hmem : "Code: " ++ orElse order.transaction_code "---" ∈
          (customerInfo env order).filter (startsWith "Code: ") := by
        rw [hfilter, if_pos hm]
        simp
      exact ⟨_, (List.mem_filter.mp hmem).1, (List.mem_filter.mp hmem).2⟩
  · intro line hline
    unfold renderReceipt
    simp only [List.mem_append, List.mem_map]
    exact Or.inl (Or.inl (Or.inl (Or.inr ⟨line, hline, rfl⟩)))

theorem substring_zero_data (s : String) (n : Nat) :
    (substring s 0 n).data = s.data.take n := by
  unfold substring
  simp only [String.length, Nat.zero_min, Nat.zero_le, max_eq_right, min_eq_left,
    List.drop_zero]
  by_cases h : n ≤ s.data.length
  · rw [min_eq_left h]
  · have h2 : s.data.length ≤ n := by omega
    rw [min_eq_right h2, List.take_of_length_le h2, List.take_of_length_le (le_refl _)]

/-- C7: the name column of an item line has exactly 12 characters: the first 12
characters of the product name when it has at least 12, and otherwise the whole
name followed by spaces up to 12; the item line is this column, two spaces, and
then the quantity, so the quantity starts at offset 14 on every item line. -/
theorem nameColumn_width (name : String) (item : ItemView) :
    (nameColumn name).length = 12 ∧
    nameColumn name =
      (if 12 ≤ name.length then ⟨name.data.take 12⟩
       else ⟨name.data ++ List.replicate (12 - name.length) ' '⟩) ∧
    (itemLine item).data.take 14 = (nameColumn item.product_name).data ++ [' ', ' '] ∧
    (itemLine item).data.drop 14 =
      (toString item.quantity ++ "   " ++ toFixed2 item.unit_price ++ "   " ++
        toFixed2 item.subtotal).data := by
  have hdata : ∀ n : String, (nameColumn n).data =
      n.data.take 12 ++ List.replicate (12 - (n.data.take 12).length) ' ' := by
    intro n
    unfold nameColumn padEnd
    simp only [String.length, substring_zero_data]
  have hlen : ∀ n : String, (nameColumn n).data.length = 12 := by
    intro n
    rw [hdata]
    simp only [List.length_append, List.length_replicate, List.length_take]
    omega
  refine ⟨hlen name, ?_, ?_, ?_⟩
  · apply String.ext
    rw [hdata]
    by_cases h : 12 ≤ name.length
    · have h2 : 12 ≤ name.data.length := h
      simp [h, List.length_take, h2]
    · have h2 : ¬ 12 ≤ name.data.length := h
      have h3 : name.data.length ≤ 12 := by omega
      simp only [h, if_false]
      rw [List.take_of_length_le h3]
      rfl
  · have hline : (itemLine item).data = ((nameColumn item.product_name).data ++ [' ', ' ']) ++
        (toString item.quantity ++ "   " ++ toFixed2 item.unit_price ++ "   " ++
          toFixed2 item.subtotal).data := by
      unfold itemLine
      simp only [String.data_append, List.append_assoc]
    rw [hline, List.take_left']
    simp [hlen]
  · have hline : (itemLine item).data = ((nameColumn item.product_name).data ++ [' ', ' ']) ++
        (toString item.quantity ++ "   " ++ toFixed2 item.unit_price ++ "   " ++
          toFixed2 item.subtotal).data := by
      unfold itemLine
      simp only [String.data_append, List.append_assoc]
    rw [hline, List.drop_left']
    simp [hlen]

/-! ## The fresh-serial condition is an invariant of order creation -/

theorem insertItems_frame (faults : Faults) (orderId : Nat) (items : List PricedItem)
    (k : Nat) (s : Store) :
    (insertItems faults orderId items k s).2.orders = s.orders ∧
    (insertItems faults orderId items k s).2.next_order_id = s.next_order_id ∧
    (insertItems faults orderId items k s).2.products = s.products ∧
    ∀ oi ∈ (insertItems faults orderId items k s).2.order_items,
      oi ∈ s.order_items ∨ oi.order_id = orderId := by
  induction items generalizing k s with
  | nil => exact ⟨rfl, rfl, rfl, fun oi hoi => Or.inl hoi⟩
  | cons it rest ih =>
    simp only [insertItems]
    split
    · exact ⟨rfl, rfl, rfl, fun oi hoi => Or.inl hoi⟩
    · obtain ⟨h1, h2, h3, h4⟩ := ih (k + 1)
        (s.insertOrderItem { order_id := orderId, product_id := it.product_id,
                             quantity := it.quantity, unit_price := it.unit_price,
                             subtotal := it.subtotal })
      refine ⟨h1, h2, h3, ?_⟩
      intro oi hoi
      rcases h4 oi hoi with hmem | hid
      · simp only [Store.insertOrderItem, List.mem_append, List.mem_singleton] at hmem
        rcases hmem with hmem | rfl
        · exact Or.inl hmem
        · exact Or.inr rfl
      · exact Or.inr hid

theorem postOrder_preserves_fresh (s : Store) (req : OrderRequest) (faults : Faults)
    (hfresh : s.Fresh) : (postOrder s req faults).2.Fresh := by
  unfold postOrder
  cases hp : priceItems s faults req.items 0 Double.zero with
  | error r => exact hfresh
  | ok res =>
    obtain ⟨total, priced⟩ := res
    simp only
    cases hf : faults req.items.length with
    | some msg => exact hfresh
    | none =>
      simp only [Store.insertOrder]
      obtain ⟨h1, h2, _, h4⟩ := insertItems_frame faults s.next_order_id priced
        (req.items.length + 1)
        { s with
          orders := s.orders ++
            [{ order_id := s.next_order_id, customer_name := orNull req.customer_name,
               customer_phone := orNull req.customer_phone, total_amount := total,
               status := "Paid", payment_method := req.paymentMethod,
               transaction_code := req.transactionCode, created_at := some s.clock }],
          next_order_id := s.next_order_id + 1 }
      have hgoal : Store.Fresh (insertItems faults s.next_order_id priced (req.items.length + 1)
          { s with
            orders := s.orders ++
              [{ order_id := s.next_order_id, customer_name := orNull req.customer_name,
                 customer_phone := orNull req.customer_phone, total_amount := total,
                 status := "Paid", payment_method := req.paymentMethod,
                 transaction_code := req.transactionCode, created_at := some s.clock }],
            next_order_id := s.next_order_id + 1 }).2 := by
        constructor
        · intro o ho
          rw [h1] at ho
          rw [h2]
          simp only [List.mem_append, List.mem_singleton] at ho
          rcases ho with ho | rfl
          · have := hfresh.1 o ho
            simp only
            omega
          · simp
        · intro oi hoi
          rw [h2]
          rcases h4 oi hoi with hmem | hid
          · have := hfresh.2 oi hmem
            simp only at hmem ⊢
            omega
          · simp only
            omega
      cases hi : insertItems faults s.next_order_id priced (req.items.length + 1)
          { s with
            orders := s.orders ++
              [{ order_id := s.next_order_id, customer_name := orNull req.customer_name,
                 customer_phone := orNull req.customer_phone, total_amount := total,
                 status := "Paid", payment_method := req.paymentMethod,
                 transaction_code := req.transactionCode, created_at := some s.clock }],
            next_order_id := s.next_order_id + 1 } with
      | mk res s2 =>
        rw [hi] at hgoal
        cases res <;> exact hgoal

end AquaBliss
